import Mathlib

/-!
Shallow embedding of the Solax X1 RS485 protocol layer (Go package
`solaxx1rs485`) and its client orchestration, together with proofs of the
specification claims.

Bytes are modelled as `Nat` (a Go `byte` always holds a value `< 256`;
where Go performs a narrowing cast such as `uint8(x)` the embedding writes
`% 256` explicitly).  Machine integers `uint16`/`uint32` are `Nat` with
`% 65536` / `% 4294967296` where overflow matters.  Fallible Go functions
(`(T, error)`) become `Except ProtoErr T`; the distinct error messages the
Go code attaches to its sentinel errors are modelled as distinct
constructors.  Go slice indexing and slice-to-array casts can panic when
out of bounds; the embedding routes every such access through a checked
accessor (`byteAt`, `u16At`, `u32At`, `sliceAt`) whose out-of-range branch
returns the distinguished error `ProtoErr.OutOfBounds`, so that
reachability of the panic branch is a provable (refutable) proposition.
-/

instance {ε α : Type} [DecidableEq ε] [DecidableEq α] : DecidableEq (Except ε α)
  | .ok a, .ok b => decidable_of_iff (a = b) (by simp)
  | .error a, .error b => decidable_of_iff (a = b) (by simp)
  | .ok _, .error _ => isFalse (by simp)
  | .error _, .ok _ => isFalse (by simp)

/-- `bytesFromUint16` (bytes.go): big-endian encoding of a `uint16` as two
bytes, `[]byte{uint8(in / 256), uint8(in % 256)}`. -/
def bytesFromUint16 (i : Nat) : List Nat :=
  [i / 256 % 256, i % 256]

/-- `uint16FromBytes` (bytes.go): `uint16(in[0])*256 + uint16(in[1])`. -/
def uint16FromBytes (b0 b1 : Nat) : Nat :=
  b0 * 256 + b1

/-- `uint32FromBytes` (bytes.go):
`uint32(in[0])*256*256*256 + uint32(in[1])*256*256 + uint32(in[2])*256 + uint32(in[3])`. -/
def uint32FromBytes (b0 b1 b2 b3 : Nat) : Nat :=
  b0 * 256 * 256 * 256 + b1 * 256 * 256 + b2 * 256 + b3

/-- `checksum` (protocol.go): additive sum of all bytes accumulated in a
`uint16` register with silent wraparound mod 2^16. -/
def checksum (body : List Nat) : Nat :=
  body.sum % 65536

/-- Error kinds of the protocol layer.  The Go source uses sentinel errors
wrapped with distinct messages; each distinguishable failure becomes one
constructor:
* `PayloadTooLarge`  = `ErrMaxDataSizeExceeded`;
* `FrameTooShort`, `LengthMismatch`, `ChecksumMismatch`, `BadHeader` =
  the four `ErrInvalidBody` wraps inside `ParsePacket`, in source order;
* `UnexpectedControlCode` / `UnexpectedFunctionCode` = the corresponding
  sentinels;
* `MalformedStatus` = the `ErrInvalidBody` wraps for a status payload of
  the wrong length or an unknown status byte;
* `DeviceRejected` = the `"got NOACK"` error;
* `InvalidBody` = the plain `ErrInvalidBody` returns of the fixed-layout
  data decoders;
* `OutOfBounds` = the panic branch of a Go slice index / slice-to-array
  cast (never reachable, see the safety claim). -/
inductive ProtoErr where
  | PayloadTooLarge
  | FrameTooShort
  | LengthMismatch
  | ChecksumMismatch
  | BadHeader
  | UnexpectedControlCode
  | UnexpectedFunctionCode
  | MalformedStatus
  | DeviceRejected
  | InvalidBody
  | OutOfBounds
deriving DecidableEq, Repr

/-- Control code constants (protocol.go). -/
def ControlCodeRegister : Nat := 0x10
def ControlCodeRead : Nat := 0x11
def StatusACK : Nat := 0x06
def StatusNOACK : Nat := 0x15

/-- `Packet` (protocol.go): the wire envelope.  Field types in Go are
`uint16`/`byte`/`[]byte`; here all are `Nat`-based, with the width
restrictions appearing as hypotheses where they matter. -/
structure Packet where
  Header : Nat
  Source : Nat
  Destination : Nat
  ControlCode : Nat
  FunctionCode : Nat
  Data : List Nat
deriving DecidableEq, Repr

/-- `DefaultPacket` (protocol.go). -/
def DefaultPacket : Packet :=
  { Header := 0xAA55, Source := 0x0000, Destination := 0x0000,
    ControlCode := 0, FunctionCode := 0, Data := [] }

/-- `Packet.Bytes` (protocol.go): serialize the envelope.  Fails when the
payload exceeds 255 bytes (the length field is a single byte); otherwise
emits header, source, destination (big-endian), control code, function
code, one length byte (`uint8(len(p.Data))`), the payload, and the 2-byte
big-endian additive checksum over everything preceding it. -/
def Packet.Bytes (p : Packet) : Except ProtoErr (List Nat) :=
  if p.Data.length > 0xFF then
    .error .PayloadTooLarge
  else
    let body :=
      bytesFromUint16 p.Header ++ bytesFromUint16 p.Source ++
      bytesFromUint16 p.Destination ++
      [p.ControlCode % 256, p.FunctionCode % 256, p.Data.length % 256] ++
      p.Data
    .ok (body ++ bytesFromUint16 (checksum body))

/-- Checked single-byte access `res[i]`; the `.error .OutOfBounds` branch
models the Go runtime panic on an out-of-range index. -/
def byteAt (res : List Nat) (i : Nat) : Except ProtoErr Nat :=
  if i < res.length then .ok (res.getD i 0) else .error .OutOfBounds

/-- Checked 2-byte big-endian read `uint16FromBytes(*(*[2]byte)(res[i:i+2]))`. -/
def u16At (res : List Nat) (i : Nat) : Except ProtoErr Nat :=
  if i + 2 ≤ res.length then .ok (uint16FromBytes (res.getD i 0) (res.getD (i + 1) 0))
  else .error .OutOfBounds

/-- Checked 4-byte big-endian read `uint32FromBytes(*(*[4]byte)(res[i:i+4]))`. -/
def u32At (res : List Nat) (i : Nat) : Except ProtoErr Nat :=
  if i + 4 ≤ res.length then
    .ok (uint32FromBytes (res.getD i 0) (res.getD (i + 1) 0)
          (res.getD (i + 2) 0) (res.getD (i + 3) 0))
  else .error .OutOfBounds

/-- Checked slice `res[lo : lo+len]`. -/
def sliceAt (res : List Nat) (lo len : Nat) : Except ProtoErr (List Nat) :=
  if lo + len ≤ res.length then .ok ((res.drop lo).take len)
  else .error .OutOfBounds

/-- `ParsePacket` (protocol.go).  Validation order in the source:
1. minimum size 11;
2. `len(res) == int(res[8]) + 11`;
3. additive checksum over `res[:len-2]` equals the trailing two bytes as a
   big-endian `uint16`;
4. the first two bytes equal `0xAA55`.
On success the envelope fields are extracted and the payload is
`res[9 : 9+dataLength]`. -/
def ParsePacket (res : List Nat) : Except ProtoErr Packet :=
  if res.length < 11 then
    .error .FrameTooShort
  else do
    let dataLength ← byteAt res 8
    if res.length ≠ dataLength + 11 then
      throw .LengthMismatch
    else do
      let cs ← u16At res (res.length - 2)
      if checksum (res.take (res.length - 2)) ≠ cs then
        throw .ChecksumMismatch
      else do
        let hdr ← u16At res 0
        if hdr ≠ 0xAA55 then
          throw .BadHeader
        else do
          let src ← u16At res 2
          let dst ← u16At res 4
          let cc ← byteAt res 6
          let fc ← byteAt res 7
          let data ← sliceAt res 9 dataLength
          pure { Header := hdr, Source := src, Destination := dst,
                 ControlCode := cc, FunctionCode := fc, Data := data }

/-- `UnregisteredInverterRequest` (protocol.go): discovery request,
control code 0x10, function code 0x00, empty payload. -/
def UnregisteredInverterRequest : Packet :=
  { DefaultPacket with ControlCode := ControlCodeRegister, FunctionCode := 0x00 }

/-- `UnregisteredInverterResponse` (protocol.go). -/
structure UnregisteredInverterResponse where
  Serial : List Nat
deriving DecidableEq, Repr

/-- `ParseUnregisteredInverterResponse` (protocol.go): decode the frame,
require control code 0x10 and function code 0x80, return the payload as
the inverter serial. -/
def ParseUnregisteredInverterResponse (body : List Nat) :
    Except ProtoErr UnregisteredInverterResponse :=
  match ParsePacket body with
  | .error e => .error e
  | .ok p =>
    if p.ControlCode ≠ ControlCodeRegister then .error .UnexpectedControlCode
    else if p.FunctionCode ≠ 0x80 then .error .UnexpectedFunctionCode
    else .ok { Serial := p.Data }

/-- `RegisterInverterRequest` (protocol.go): control 0x10, function 0x01,
payload `append(serial, address)`. -/
def RegisterInverterRequest (serial : List Nat) (address : Nat) : Packet :=
  { DefaultPacket with
    ControlCode := ControlCodeRegister, FunctionCode := 0x01,
    Data := serial ++ [address] }

/-- `ParseRegisterInverterResponse` (protocol.go): decode the frame,
require control code 0x10 and function code 0x81, then a 1-byte status
payload that is either NOACK 0x15 (rejection) or ACK 0x06 (success);
any other length or byte is malformed. -/
def ParseRegisterInverterResponse (body : List Nat) : Except ProtoErr Unit :=
  match ParsePacket body with
  | .error e => .error e
  | .ok p =>
    if p.ControlCode ≠ ControlCodeRegister then .error .UnexpectedControlCode
    else if p.FunctionCode ≠ 0x81 then .error .UnexpectedFunctionCode
    else if p.Data.length ≠ 1 then .error .MalformedStatus
    else if p.Data.getD 0 0 = StatusNOACK then .error .DeviceRejected
    else if p.Data.getD 0 0 ≠ StatusACK then .error .MalformedStatus
    else .ok ()

/-- `UnregisterInverterRequest` (protocol.go): control 0x10, function 0x02,
payload `append(serial, address)`. -/
def UnregisterInverterRequest (serial : List Nat) (address : Nat) : Packet :=
  { DefaultPacket with
    ControlCode := ControlCodeRegister, FunctionCode := 0x02,
    Data := serial ++ [address] }

/-- `ParseUnregisterInverterResponse` (protocol.go): like the register
response parser but expecting function code 0x82. -/
def ParseUnregisterInverterResponse (body : List Nat) : Except ProtoErr Unit :=
  match ParsePacket body with
  | .error e => .error e
  | .ok p =>
    if p.ControlCode ≠ ControlCodeRegister then .error .UnexpectedControlCode
    else if p.FunctionCode ≠ 0x82 then .error .UnexpectedFunctionCode
    else if p.Data.length ≠ 1 then .error .MalformedStatus
    else if p.Data.getD 0 0 = StatusNOACK then .error .DeviceRejected
    else if p.Data.getD 0 0 ≠ StatusACK then .error .MalformedStatus
    else .ok ()

/-- `NormalInfoRequest` (protocol.go): telemetry query, control 0x11,
function 0x02, destination low byte = target address. -/
def NormalInfoRequest (address : Nat) : Packet :=
  { DefaultPacket with
    Destination := uint16FromBytes 0x00 address,
    ControlCode := ControlCodeRead, FunctionCode := 0x02 }

/-- `NormalInfoResponse` (protocol.go): the raw 50-byte telemetry record.
The anonymous Go padding field `_ uint16` (bytes 20..22 of the payload,
never assigned) is omitted. -/
structure NormalInfoResponse where
  Temperature : Nat
  EnergyToday : Nat
  Vpv1 : Nat
  Vpv2 : Nat
  Apv1 : Nat
  Apv2 : Nat
  Iac : Nat
  Vac : Nat
  Frequency : Nat
  Power : Nat
  EnergyTotal : Nat
  TimeTotal : Nat
  Mode : Nat
  GridVoltFault : Nat
  GridFreqFault : Nat
  DCIFault : Nat
  TemperatureFault : Nat
  PV1Fault : Nat
  PV2Fault : Nat
  GFCFault : Nat
  ErrMessage : Nat
deriving DecidableEq, Repr

/-- `NormalizedNormalInfoResponse` (protocol.go).  The Go struct stores the
scaled fields as `float64`; the claims under proof only concern `Mode` and
`ErrMessage`, and the scaled fields are modelled as exact rationals. -/
structure NormalizedNormalInfoResponse where
  Temperature : Nat
  EnergyToday : ℚ
  Vpv1 : ℚ
  Vpv2 : ℚ
  Apv1 : ℚ
  Apv2 : ℚ
  Iac : ℚ
  Vac : ℚ
  Frequency : ℚ
  Power : Nat
  EnergyTotal : ℚ
  TimeTotal : Nat
  Mode : String
  GridVoltFault : ℚ
  GridFreqFault : ℚ
  DCIFault : ℚ
  TemperatureFault : ℚ
  PV1Fault : ℚ
  PV2Fault : ℚ
  GFCFault : ℚ
  ErrMessage : List String
deriving DecidableEq, Repr

/-- The operating-mode lookup in `NormalizeInfoResponse` (protocol.go):
`modes := map[uint16]string{0:"Wait", …, 6:"Selftest"}` read as
`modes[in.Mode]`.  A Go map lookup at a missing key yields the zero value,
the empty string. -/
def modeName (m : Nat) : String :=
  match m with
  | 0 => "Wait"
  | 1 => "Check"
  | 2 => "Normal"
  | 3 => "Fault"
  | 4 => "Permanent Fault"
  | 5 => "Update"
  | 6 => "Selftest"
  | _ => ""

/-- Fault-message appends of `NormalizeInfoResponse` (protocol.go),
BYTE0 group of the `ErrMessage` table: the k-th append (k = 0..7) is
guarded by `in.ErrMessage & (2147483648 >> k) == 2147483648 >> k`. -/
def errMessageByte0 (err : Nat) : List String :=
  (if err &&& 2147483648 = 2147483648 then ["TzProtectFault"] else []) ++
  (if err &&& (2147483648 >>> 1) = 2147483648 >>> 1 then ["MainsLostFault"] else []) ++
  (if err &&& (2147483648 >>> 2) = 2147483648 >>> 2 then ["GridVoltFault"] else []) ++
  (if err &&& (2147483648 >>> 3) = 2147483648 >>> 3 then ["GridFreqFault"] else []) ++
  (if err &&& (2147483648 >>> 4) = 2147483648 >>> 4 then ["PLLLostFault"] else []) ++
  (if err &&& (2147483648 >>> 5) = 2147483648 >>> 5 then ["BusVoltFault"] else []) ++
  (if err &&& (2147483648 >>> 6) = 2147483648 >>> 6 then ["BIT06"] else []) ++
  (if err &&& (2147483648 >>> 7) = 2147483648 >>> 7 then ["OciFault"] else [])

/-- BYTE1 group of the fault-message appends (k = 8..15). -/
def errMessageByte1 (err : Nat) : List String :=
  (if err &&& (2147483648 >>> 8) = 2147483648 >>> 8 then ["Dci_OCP_Fault"] else []) ++
  (if err &&& (2147483648 >>> 9) = 2147483648 >>> 9 then ["ResidualCurrentFault"] else []) ++
  (if err &&& (2147483648 >>> 10) = 2147483648 >>> 10 then ["PvVoltFault"] else []) ++
  (if err &&& (2147483648 >>> 11) = 2147483648 >>> 11 then ["Ac10Mins_Voltage_Fault"] else []) ++
  (if err &&& (2147483648 >>> 12) = 2147483648 >>> 12 then ["IsolationFault"] else []) ++
  (if err &&& (2147483648 >>> 13) = 2147483648 >>> 13 then ["TemperatureOverFault"] else []) ++
  (if err &&& (2147483648 >>> 14) = 2147483648 >>> 14 then ["FanFault"] else []) ++
  (if err &&& (2147483648 >>> 15) = 2147483648 >>> 15 then ["bit15"] else [])

/-- BYTE2 group of the fault-message appends (k = 16..23). -/
def errMessageByte2 (err : Nat) : List String :=
  (if err &&& (2147483648 >>> 16) = 2147483648 >>> 16 then ["SpiCommsFault"] else []) ++
  (if err &&& (2147483648 >>> 17) = 2147483648 >>> 17 then ["SciCommsFault"] else []) ++
  (if err &&& (2147483648 >>> 18) = 2147483648 >>> 18 then ["BIT18"] else []) ++
  (if err &&& (2147483648 >>> 19) = 2147483648 >>> 19 then ["InputConfigFault"] else []) ++
  (if err &&& (2147483648 >>> 20) = 2147483648 >>> 20 then ["EepromFault"] else []) ++
  (if err &&& (2147483648 >>> 21) = 2147483648 >>> 21 then ["RelayFault"] else []) ++
  (if err &&& (2147483648 >>> 22) = 2147483648 >>> 22 then ["SampleConsistenceFault"] else []) ++
  (if err &&& (2147483648 >>> 23) = 2147483648 >>> 23 then ["ResidualCurrent_DeviceFault"] else [])

/-- BYTE3 group of the fault-message appends (k = 24..31). -/
def errMessageByte3 (err : Nat) : List String :=
  (if err &&& (2147483648 >>> 24) = 2147483648 >>> 24 then ["BIT24"] else []) ++
  (if err &&& (2147483648 >>> 25) = 2147483648 >>> 25 then ["BIT25"] else []) ++
  (if err &&& (2147483648 >>> 26) = 2147483648 >>> 26 then ["BIT26"] else []) ++
  (if err &&& (2147483648 >>> 27) = 2147483648 >>> 27 then ["BIT27"] else []) ++
  (if err &&& (2147483648 >>> 28) = 2147483648 >>> 28 then ["BIT28"] else []) ++
  (if err &&& (2147483648 >>> 29) = 2147483648 >>> 29 then ["DCI_DeviceFault"] else []) ++
  (if err &&& (2147483648 >>> 30) = 2147483648 >>> 30 then ["OtherDeviceFault"] else []) ++
  (if err &&& (2147483648 >>> 31) = 2147483648 >>> 31 then ["BIT31"] else [])

/-- The full fault-message chain of `NormalizeInfoResponse` (protocol.go):
32 sequential conditional appends to an initially empty list, shown here
in the four byte groups of the source table, concatenated in source
order. -/
def errMessageList (err : Nat) : List String :=
  errMessageByte0 err ++ errMessageByte1 err ++ errMessageByte2 err ++ errMessageByte3 err

/-- `NormalizeInfoResponse` (protocol.go): scale raw telemetry to physical
units, map the mode code through the fixed lookup, and expand the fault
bitmask via the 32-step append chain. -/
def NormalizeInfoResponse (i : NormalInfoResponse) : NormalizedNormalInfoResponse :=
  { Temperature := i.Temperature,
    EnergyToday := (i.EnergyToday : ℚ) / 10,
    Vpv1 := (i.Vpv1 : ℚ) / 10,
    Vpv2 := (i.Vpv2 : ℚ) / 10,
    Apv1 := (i.Apv1 : ℚ) / 10,
    Apv2 := (i.Apv2 : ℚ) / 10,
    Iac := (i.Iac : ℚ) / 10,
    Vac := (i.Vac : ℚ) / 10,
    Frequency := (i.Frequency : ℚ) / 100,
    Power := i.Power,
    EnergyTotal := (i.EnergyTotal : ℚ) / 10,
    TimeTotal := i.TimeTotal,
    Mode := modeName i.Mode,
    GridVoltFault := (i.GridVoltFault : ℚ) / 10,
    GridFreqFault := (i.GridFreqFault : ℚ) / 100,
    DCIFault := (i.DCIFault : ℚ) / 1000,
    TemperatureFault := (i.TemperatureFault : ℚ),
    PV1Fault := (i.PV1Fault : ℚ) / 10,
    PV2Fault := (i.PV2Fault : ℚ) / 10,
    GFCFault := (i.GFCFault : ℚ) / 1000,
    ErrMessage := errMessageList i.ErrMessage }

/-- `NormalInfoResponseFromData` (protocol.go): decode the fixed 50-byte
telemetry payload; every field sits at a fixed offset (bytes 20..22 are
the unused padding word). -/
def NormalInfoResponseFromData (data : List Nat) : Except ProtoErr NormalInfoResponse :=
  if data.length ≠ 50 then
    .error .InvalidBody
  else do
    let temperature ← u16At data 0
    let energyToday ← u16At data 2
    let vpv1 ← u16At data 4
    let vpv2 ← u16At data 6
    let apv1 ← u16At data 8
    let apv2 ← u16At data 10
    let iac ← u16At data 12
    let vac ← u16At data 14
    let frequency ← u16At data 16
    let power ← u16At data 18
    let energyTotal ← u32At data 22
    let timeTotal ← u32At data 26
    let mode ← u16At data 30
    let gridVoltFault ← u16At data 32
    let gridFreqFault ← u16At data 34
    let dciFault ← u16At data 36
    let temperatureFault ← u16At data 38
    let pv1Fault ← u16At data 40
    let pv2Fault ← u16At data 42
    let gfcFault ← u16At data 44
    let errMessage ← u32At data 46
    pure { Temperature := temperature, EnergyToday := energyToday,
           Vpv1 := vpv1, Vpv2 := vpv2, Apv1 := apv1, Apv2 := apv2,
           Iac := iac, Vac := vac, Frequency := frequency, Power := power,
           EnergyTotal := energyTotal, TimeTotal := timeTotal, Mode := mode,
           GridVoltFault := gridVoltFault, GridFreqFault := gridFreqFault,
           DCIFault := dciFault, TemperatureFault := temperatureFault,
           PV1Fault := pv1Fault, PV2Fault := pv2Fault, GFCFault := gfcFault,
           ErrMessage := errMessage }

/-- `ParseNormalInfoResponse` (protocol.go): decode the frame, require
control code 0x11 and function code 0x82, then decode the payload. -/
def ParseNormalInfoResponse (body : List Nat) : Except ProtoErr NormalInfoResponse :=
  match ParsePacket body with
  | .error e => .error e
  | .ok p =>
    if p.ControlCode ≠ ControlCodeRead then .error .UnexpectedControlCode
    else if p.FunctionCode ≠ 0x82 then .error .UnexpectedFunctionCode
    else NormalInfoResponseFromData p.Data

/-- `InverterInfoRequest` (protocol.go): device-info query, control 0x11,
function 0x03, destination low byte = target address. -/
def InverterInfoRequest (address : Nat) : Packet :=
  { DefaultPacket with
    Destination := uint16FromBytes 0x00 address,
    ControlCode := ControlCodeRead, FunctionCode := 0x03 }

/-- `InverterInfoResponse` (protocol.go).  The Go text fields are
`string(data[lo:hi])`; here they are kept as the underlying byte ranges. -/
structure InverterInfoResponse where
  Phase : Nat
  RatedPower : List Nat
  FirmwareVersion : List Nat
  ModuleName : List Nat
  FactoryName : List Nat
  SerialNumber : List Nat
  RatedBusVoltage : List Nat
deriving DecidableEq, Repr

/-- `InverterInfoResponseFromData` (protocol.go): decode the ≥67-byte
device-info payload at fixed offsets. -/
def InverterInfoResponseFromData (data : List Nat) : Except ProtoErr InverterInfoResponse :=
  if data.length < 67 then
    .error .InvalidBody
  else do
    let phase ← byteAt data 9
    let ratedPower ← sliceAt data 10 6
    let firmwareVersion ← sliceAt data 16 5
    let moduleName ← sliceAt data 21 14
    let factoryName ← sliceAt data 35 14
    let serialNumber ← sliceAt data 49 14
    let ratedBusVoltage ← sliceAt data 63 4
    pure { Phase := phase, RatedPower := ratedPower,
           FirmwareVersion := firmwareVersion, ModuleName := moduleName,
           FactoryName := factoryName, SerialNumber := serialNumber,
           RatedBusVoltage := ratedBusVoltage }

/-- `ParseInverterInfoResponse` (protocol.go): decode the frame, require
control code 0x11 and function code 0x83, then decode the payload. -/
def ParseInverterInfoResponse (body : List Nat) : Except ProtoErr InverterInfoResponse :=
  match ParsePacket body with
  | .error e => .error e
  | .ok p =>
    if p.ControlCode ≠ ControlCodeRead then .error .UnexpectedControlCode
    else if p.FunctionCode ≠ 0x83 then .error .UnexpectedFunctionCode
    else InverterInfoResponseFromData p.Data

/-!
Client orchestration (client.go).  The serial transport is an external
collaborator; one request/response transaction touches it through three
operations, modelled as a record of predetermined outcomes for a single
transaction: the result of `Conn.Flush()`, the byte count reported by
`Conn.Write` (or an I/O error), and the bytes returned by the post-dwell
`io.ReadAll` (or an I/O error).  Client errors wrap either a protocol
error or one of the transport-layer sentinels. -/

/-- Outcomes of the three transport operations used by one transaction.
`Except Unit` stands for the opaque Go `error` an external transport can
return. -/
structure Transport where
  flushResult : Except Unit Unit
  writeResult : Except Unit Nat
  readResult : Except Unit (List Nat)
deriving DecidableEq, Repr

/-- Error kinds of the client layer: a wrapped protocol error, an opaque
transport I/O error, `ErrIncompleteWrite`, or `ErrNoInverter`. -/
inductive ClientErr where
  | Proto (e : ProtoErr)
  | IOError
  | IncompleteWrite
  | NoInverter
deriving DecidableEq, Repr

/-- `Inverter` (client.go): a device on the bus. -/
structure Inverter where
  Serial : List Nat
  Address : Nat
deriving DecidableEq, Repr

/-- `Client.Send` (client.go): write the request; an I/O error propagates,
and a write reporting fewer bytes than the request is
`ErrIncompleteWrite`. -/
def clientSend (t : Transport) (req : List Nat) : Except ClientErr Unit :=
  match t.writeResult with
  | .error _ => .error .IOError
  | .ok n => if n ≠ req.length then .error .IncompleteWrite else .ok ()

/-- `Client.Read` (client.go): sleep for the dwell interval, then read all
currently available bytes; only the transport outcome is visible here. -/
def clientRead (t : Transport) : Except ClientErr (List Nat) :=
  match t.readResult with
  | .error _ => .error .IOError
  | .ok resp => .ok resp

/-- `Client.FindUnregisteredInverter` (client.go): flush, send the
discovery request, read; an empty response is the distinct
`ErrNoInverter`, otherwise the response is parsed and a fresh inverter
with the reported serial (and zero-valued address) is returned. -/
def FindUnregisteredInverter (t : Transport) : Except ClientErr Inverter :=
  match t.flushResult with
  | .error _ => .error .IOError
  | .ok _ =>
    match UnregisteredInverterRequest.Bytes with
    | .error e => .error (.Proto e)
    | .ok req =>
      match clientSend t req with
      | .error e => .error e
      | .ok _ =>
        match clientRead t with
        | .error e => .error e
        | .ok resp =>
          if resp.length = 0 then .error .NoInverter
          else
            match ParseUnregisteredInverterResponse resp with
            | .error e => .error (.Proto e)
            | .ok r => .ok { Serial := r.Serial, Address := 0 }

/-- `Client.RegisterInverter` (client.go): flush, send the registration
request, read, parse; only after a fully successful exchange is the
inverter's `Address` field set to the requested address.  Returns the
operation result together with the (possibly updated) inverter. -/
def RegisterInverter (t : Transport) (inv : Inverter) (address : Nat) :
    Except ClientErr Unit × Inverter :=
  match t.flushResult with
  | .error _ => (.error .IOError, inv)
  | .ok _ =>
    match (RegisterInverterRequest inv.Serial address).Bytes with
    | .error e => (.error (.Proto e), inv)
    | .ok req =>
      match clientSend t req with
      | .error e => (.error e, inv)
      | .ok _ =>
        match clientRead t with
        | .error e => (.error e, inv)
        | .ok resp =>
          match ParseRegisterInverterResponse resp with
          | .error e => (.error (.Proto e), inv)
          | .ok _ => (.ok (), { inv with Address := address })

/-- `Client.UnregisterInverter` (client.go): like registration but with
the deregistration request; after a fully successful exchange the
inverter's `Address` field is reset to 0. -/
def UnregisterInverter (t : Transport) (inv : Inverter) :
    Except ClientErr Unit × Inverter :=
  match t.flushResult with
  | .error _ => (.error .IOError, inv)
  | .ok _ =>
    match (UnregisterInverterRequest inv.Serial inv.Address).Bytes with
    | .error e => (.error (.Proto e), inv)
    | .ok req =>
      match clientSend t req with
      | .error e => (.error e, inv)
      | .ok _ =>
        match clientRead t with
        | .error e => (.error e, inv)
        | .ok resp =>
          match ParseUnregisterInverterResponse resp with
          | .error e => (.error (.Proto e), inv)
          | .ok _ => (.ok (), { inv with Address := 0x00 })

/-- `Client.GetInfo` (client.go): the telemetry query transaction. -/
def GetInfo (t : Transport) (inv : Inverter) : Except ClientErr NormalInfoResponse :=
  match t.flushResult with
  | .error _ => .error .IOError
  | .ok _ =>
    match (NormalInfoRequest inv.Address).Bytes with
    | .error e => .error (.Proto e)
    | .ok req =>
      match clientSend t req with
      | .error e => .error e
      | .ok _ =>
        match clientRead t with
        | .error e => .error e
        | .ok resp =>
          match ParseNormalInfoResponse resp with
          | .error e => .error (.Proto e)
          | .ok result => .ok result

/-- `Client.GetInverterInfo` (client.go): the device-info query
transaction. -/
def GetInverterInfo (t : Transport) (inv : Inverter) : Except ClientErr InverterInfoResponse :=
  match t.flushResult with
  | .error _ => .error .IOError
  | .ok _ =>
    match (InverterInfoRequest inv.Address).Bytes with
    | .error e => .error (.Proto e)
    | .ok req =>
      match clientSend t req with
      | .error e => .error e
      | .ok _ =>
        match clientRead t with
        | .error e => .error e
        | .ok resp =>
          match ParseInverterInfoResponse resp with
          | .error e => .error (.Proto e)
          | .ok result => .ok result

/-- The documented fault-bit table: the `ErrMessage details` comment in
protocol.go names the fault of each bit position, `TzProtectFault` for
bit 0 up to `BIT31` for bit 31, in the same textual order as the 32
appends of `NormalizeInfoResponse`. -/
def faultName (bit : Nat) : String :=
  match bit with
  | 0 => "TzProtectFault"
  | 1 => "MainsLostFault"
  | 2 => "GridVoltFault"
  | 3 => "GridFreqFault"
  | 4 => "PLLLostFault"
  | 5 => "BusVoltFault"
  | 6 => "BIT06"
  | 7 => "OciFault"
  | 8 => "Dci_OCP_Fault"
  | 9 => "ResidualCurrentFault"
  | 10 => "PvVoltFault"
  | 11 => "Ac10Mins_Voltage_Fault"
  | 12 => "IsolationFault"
  | 13 => "TemperatureOverFault"
  | 14 => "FanFault"
  | 15 => "bit15"
  | 16 => "SpiCommsFault"
  | 17 => "SciCommsFault"
  | 18 => "BIT18"
  | 19 => "InputConfigFault"
  | 20 => "EepromFault"
  | 21 => "RelayFault"
  | 22 => "SampleConsistenceFault"
  | 23 => "ResidualCurrent_DeviceFault"
  | 24 => "BIT24"
  | 25 => "BIT25"
  | 26 => "BIT26"
  | 27 => "BIT27"
  | 28 => "BIT28"
  | 29 => "DCI_DeviceFault"
  | 30 => "OtherDeviceFault"
  | 31 => "BIT31"
  | _ => ""

/-- Modelled from the spec claim (refinement comparison only): the fault
list the claim predicts — one name per set bit, drawn from the documented
table (`faultName`, bit 0 = "TzProtectFault" … bit 31 = "BIT31"), ordered
by bit position from bit 31 down to bit 0. -/
def claimFaultList (err : Nat) : List String :=
  ((List.range 32).map
    (fun j => if err.testBit (31 - j) then [faultName (31 - j)] else [])).flatten


/-- A well-formed registration ACK response frame (control 0x10, function
0x81, status payload `[0x06]`, checksum 0x0197). -/
def regAckFrame : List Nat :=
  [0xAA, 0x55, 0, 0, 0, 0, 0x10, 0x81, 0x01, 0x06, 0x01, 0x97]

/-- The packet `regAckFrame` decodes to. -/
def regAckPacket : Packet :=
  { Header := 0xAA55, Source := 0, Destination := 0,
    ControlCode := 0x10, FunctionCode := 0x81, Data := [0x06] }

/-- A packet with a non-0xAA55 header (everything else well-formed):
`Bytes` accepts it but `ParsePacket` rejects its own encoding. -/
def zeroHeaderPacket : Packet :=
  { Header := 0, Source := 0, Destination := 0,
    ControlCode := 0, FunctionCode := 0, Data := [] }

/-- A concrete well-formed packet for the round-trip witness. -/
def witnessPacket : Packet :=
  { Header := 0xAA55, Source := 0, Destination := 0,
    ControlCode := 0x10, FunctionCode := 0x01, Data := [1, 2, 3] }

/-- A telemetry record whose fault mask has only bit 31 set. -/
def bit31Telemetry : NormalInfoResponse :=
  { Temperature := 0, EnergyToday := 0, Vpv1 := 0, Vpv2 := 0, Apv1 := 0,
    Apv2 := 0, Iac := 0, Vac := 0, Frequency := 0, Power := 0,
    EnergyTotal := 0, TimeTotal := 0, Mode := 0, GridVoltFault := 0,
    GridFreqFault := 0, DCIFault := 0, TemperatureFault := 0, PV1Fault := 0,
    PV2Fault := 0, GFCFault := 0, ErrMessage := 2147483648 }

/-- A telemetry record with the unknown operating-mode code 7. -/
def mode7Telemetry : NormalInfoResponse :=
  { bit31Telemetry with Mode := 7, ErrMessage := 0 }

/-- The telemetry record of the spec's concrete normalization example:
mode code 2, fault mask 0b10001000_01000100_00100010_00010001. -/
def exampleTelemetry : NormalInfoResponse :=
  { bit31Telemetry with Mode := 2, ErrMessage := 0b10001000010001000010001000010001 }

/-- A transport whose single transaction succeeds end to end for the
registration exchange of `witnessInverter` (request length 15) and
answers with `regAckFrame`. -/
def ackTransport : Transport :=
  { flushResult := .ok (), writeResult := .ok 15, readResult := .ok regAckFrame }

/-- The inverter used by the client-layer witnesses. -/
def witnessInverter : Inverter :=
  { Serial := [1, 2, 3], Address := 0 }

/-- A transport whose post-dwell read returns zero bytes (bus silence);
the write reports the 11 bytes of the discovery request. -/
def silentTransport : Transport :=
  { flushResult := .ok (), writeResult := .ok 11, readResult := .ok [] }

/-!  Helper lemmas. -/

theorem exceptOkBind {ε α β : Type} (a : α) (f : α → Except ε β) :
    (Except.ok a : Except ε α) >>= f = f a := rfl

theorem exceptPure {ε α : Type} (a : α) : (pure a : Except ε α) = .ok a := rfl

theorem exceptThrow {ε α : Type} (e : ε) : (throw e : Except ε α) = .error e := rfl

/-- Single-bit mask test: `n &&& 2^j = 2^j` holds exactly when bit `j` of
`n` is set. -/
theorem land_two_pow_iff (n j : Nat) : (n &&& 2 ^ j = 2 ^ j) ↔ n.testBit j := by
  rw [Nat.and_two_pow]
  rcases h : n.testBit j with _ | _
  · have hpos : 0 < 2 ^ j := Nat.pos_pow_of_pos j (by norm_num)
    simp only [Bool.toNat_false, Nat.zero_mul]
    constructor
    · intro h2
      omega
    · intro hb
      simp [h] at hb
  · simp

/-- The mask `2147483648 >> k` of the fault chain is the single bit
`31 - k`. -/
theorem land_shift_iff (n k : Nat) (hk : k ≤ 31) :
    (n &&& (2147483648 >>> k) = 2147483648 >>> k) ↔ n.testBit (31 - k) := by
  have h1 : (2147483648 : Nat) = 2 ^ 31 := by norm_num
  have h2 : (2147483648 : Nat) >>> k = 2 ^ (31 - k) := by
    rw [h1, Nat.shiftRight_eq_div_pow]
    exact Nat.pow_div hk (by omega)
  rw [h2]
  exact land_two_pow_iff n (31 - k)

/-- Characterization of `ParsePacket` on inputs that pass the minimum-size
check: the remaining three validations fire in source order, and on
success every envelope field is the big-endian read at its fixed
offset. -/
theorem ParsePacket_spec (res : List Nat) (h11 : 11 ≤ res.length) :
    ParsePacket res =
      if res.length ≠ res.getD 8 0 + 11 then .error .LengthMismatch
      else if checksum (res.take (res.length - 2)) ≠
          uint16FromBytes (res.getD (res.length - 2) 0) (res.getD (res.length - 1) 0) then
        .error .ChecksumMismatch
      else if uint16FromBytes (res.getD 0 0) (res.getD 1 0) ≠ 0xAA55 then
        .error .BadHeader
      else
        .ok { Header := uint16FromBytes (res.getD 0 0) (res.getD 1 0),
              Source := uint16FromBytes (res.getD 2 0) (res.getD 3 0),
              Destination := uint16FromBytes (res.getD 4 0) (res.getD 5 0),
              ControlCode := res.getD 6 0, FunctionCode := res.getD 7 0,
              Data := (res.drop 9).take (res.getD 8 0) } := by
  have h8 : 8 < res.length := by omega
  have hm2 : res.length - 2 + 2 ≤ res.length := by omega
  have hm1 : res.length - 2 + 1 = res.length - 1 := by omega
  unfold ParsePacket
  conv_lhs => rw [if_neg (show ¬ res.length < 11 by omega), byteAt, if_pos h8]
  rw [exceptOkBind]
  by_cases hlen : res.length ≠ res.getD 8 0 + 11
  · conv_lhs => rw [if_pos hlen]
    conv_rhs => rw [if_pos hlen]
    rfl
  · have hlen2 : res.length = res.getD 8 0 + 11 := not_not.mp hlen
    conv_lhs => rw [if_neg hlen, u16At, if_pos hm2]
    conv_rhs => rw [if_neg hlen]
    rw [exceptOkBind, hm1]
    by_cases hcs : checksum (res.take (res.length - 2)) ≠
        uint16FromBytes (res.getD (res.length - 2) 0) (res.getD (res.length - 1) 0)
    · conv_lhs => rw [if_pos hcs]
      conv_rhs => rw [if_pos hcs]
      rfl
    · conv_lhs => rw [if_neg hcs, u16At, if_pos (show 0 + 2 ≤ res.length by omega)]
      conv_rhs => rw [if_neg hcs]
      rw [exceptOkBind]
      by_cases hhdr : uint16FromBytes (res.getD 0 0) (res.getD 1 0) ≠ 0xAA55
      · conv_lhs => rw [if_pos hhdr]
        conv_rhs => rw [if_pos hhdr]
        rfl
      · conv_lhs => rw [if_neg hhdr, u16At, if_pos (show 2 + 2 ≤ res.length by omega)]
        conv_rhs => rw [if_neg hhdr]
        rw [exceptOkBind]
        conv_lhs => rw [u16At, if_pos (show 4 + 2 ≤ res.length by omega)]
        rw [exceptOkBind]
        conv_lhs => rw [byteAt, if_pos (show 6 < res.length by omega)]
        rw [exceptOkBind]
        conv_lhs => rw [byteAt, if_pos (show 7 < res.length by omega)]
        rw [exceptOkBind]
        conv_lhs => rw [sliceAt, if_pos (show 9 + res.getD 8 0 ≤ res.length by omega)]
        rw [exceptOkBind, exceptPure]

/-- C2: `ParsePacket` runs exactly four validation checks in source order
— too-short frame, declared-length mismatch, additive-checksum mismatch
over all bytes but the trailing two against the trailing big-endian u16,
and non-0xAA55 header — the first failing check determines the reported
error, and when all four pass a packet is returned (no partial result on
any failure, by the shape of `Except`). -/
theorem parsePacket_validation_order (res : List Nat) :
    (res.length < 11 → ParsePacket res = .error .FrameTooShort) ∧
    (11 ≤ res.length → res.length ≠ res.getD 8 0 + 11 →
      ParsePacket res = .error .LengthMismatch) ∧
    (11 ≤ res.length → res.length = res.getD 8 0 + 11 →
      (res.take (res.length - 2)).sum % 65536 ≠
        res.getD (res.length - 2) 0 * 256 + res.getD (res.length - 1) 0 →
      ParsePacket res = .error .ChecksumMismatch) ∧
    (11 ≤ res.length → res.length = res.getD 8 0 + 11 →
      (res.take (res.length - 2)).sum % 65536 =
        res.getD (res.length - 2) 0 * 256 + res.getD (res.length - 1) 0 →
      res.getD 0 0 * 256 + res.getD 1 0 ≠ 0xAA55 →
      ParsePacket res = .error .BadHeader) ∧
    (11 ≤ res.length → res.length = res.getD 8 0 + 11 →
      (res.take (res.length - 2)).sum % 65536 =
        res.getD (res.length - 2) 0 * 256 + res.getD (res.length - 1) 0 →
      res.getD 0 0 * 256 + res.getD 1 0 = 0xAA55 →
      ∃ p, ParsePacket res = .ok p) := by
  refine ⟨?_, ?_, ?_, ?_, ?_⟩
  · intro h
    unfold ParsePacket
    rw [if_pos h]
  · intro h11 hne
    rw [ParsePacket_spec res h11, if_pos hne]
  · intro h11 heq hcs
    rw [ParsePacket_spec res h11, if_neg (by omega),
      if_pos (show checksum (res.take (res.length - 2)) ≠ _ by
        simpa [checksum, uint16FromBytes] using hcs)]
  · intro h11 heq hcs hh
    rw [ParsePacket_spec res h11, if_neg (by omega),
      if_neg (show ¬ checksum (res.take (res.length - 2)) ≠ _ by
        simpa [checksum, uint16FromBytes] using hcs),
      if_pos (show uint16FromBytes (res.getD 0 0) (res.getD 1 0) ≠ _ by
        simpa [uint16FromBytes] using hh)]
  · intro h11 heq hcs hh
    rw [ParsePacket_spec res h11, if_neg (by omega),
      if_neg (show ¬ checksum (res.take (res.length - 2)) ≠ _ by
        simpa [checksum, uint16FromBytes] using hcs),
      if_neg (show ¬ uint16FromBytes (res.getD 0 0) (res.getD 1 0) ≠ _ by
        simpa [uint16FromBytes] using hh)]
    exact ⟨_, rfl⟩

/-- Witness for C2: the concrete ACK frame passes all four checks and
parses successfully. -/
theorem parsePacket_validation_order_witness :
    ∃ p, ParsePacket regAckFrame = .ok p :=
  (parsePacket_validation_order regAckFrame).2.2.2.2
    (by decide) (by decide) (by decide) (by decide)

/-- C6: the operating-mode code maps through the fixed lookup for codes
0..6, but the unknown code 7 normalizes to the empty string (the Go map's
zero value), not to an explicit "unknown" representation. -/
theorem unknown_mode_normalizes_empty :
    modeName 0 = "Wait" ∧ modeName 1 = "Check" ∧ modeName 2 = "Normal" ∧
    modeName 3 = "Fault" ∧ modeName 4 = "Permanent Fault" ∧
    modeName 5 = "Update" ∧ modeName 6 = "Selftest" ∧
    (NormalizeInfoResponse mode7Telemetry).Mode = "" := by
  decide

/-- C7: normalizing the example telemetry record (mode code 2, fault mask
0b10001000_01000100_00100010_00010001) yields mode "Normal" and exactly 8
fault names including "TzProtectFault", "PLLLostFault" and "BIT31". -/
theorem normalize_concrete_example :
    (NormalizeInfoResponse exampleTelemetry).Mode = "Normal" ∧
    (NormalizeInfoResponse exampleTelemetry).ErrMessage.length = 8 ∧
    "TzProtectFault" ∈ (NormalizeInfoResponse exampleTelemetry).ErrMessage ∧
    "PLLLostFault" ∈ (NormalizeInfoResponse exampleTelemetry).ErrMessage ∧
    "BIT31" ∈ (NormalizeInfoResponse exampleTelemetry).ErrMessage := by
  decide

/-- C10: the three decoders are total and never reach the out-of-range
branch of a field extraction: every fixed-offset access is guarded by the
preceding length check. -/
theorem decoders_no_out_of_bounds :
    (∀ res : List Nat, ParsePacket res ≠ .error .OutOfBounds) ∧
    (∀ data : List Nat, NormalInfoResponseFromData data ≠ .error .OutOfBounds) ∧
    (∀ data : List Nat, InverterInfoResponseFromData data ≠ .error .OutOfBounds) := by
  refine ⟨?_, ?_, ?_⟩
  · intro res
    rcases lt_or_le res.length 11 with h | h
    · unfold ParsePacket
      rw [if_pos h]
      simp
    · rw [ParsePacket_spec res h]
      split_ifs <;> simp
  · intro data
    by_cases h : data.length = 50
    · unfold NormalInfoResponseFromData
      rw [if_neg (by omega)]
      simp [u16At, u32At, h, exceptOkBind, exceptPure]
    · unfold NormalInfoResponseFromData
      rw [if_pos h]
      simp
  · intro data
    by_cases h : data.length < 67
    · unfold InverterInfoResponseFromData
      rw [if_pos h]
      simp
    · unfold InverterInfoResponseFromData
      rw [if_neg h]
      simp [byteAt, sliceAt, exceptOkBind, exceptPure, show 9 < data.length by omega,
        show 10 + 6 ≤ data.length by omega, show 16 + 5 ≤ data.length by omega,
        show 21 + 14 ≤ data.length by omega, show 35 + 14 ≤ data.length by omega,
        show 49 + 14 ≤ data.length by omega, show 63 + 4 ≤ data.length by omega]

/-- The high byte of a value already wrapped to 16 bits needs no second
truncation. -/
theorem wrapped_hi_mod (m : Nat) : m % 65536 / 256 % 256 = m % 65536 / 256 :=
  Nat.mod_eq_of_lt (by omega)

/-- The trailing checksum bytes: big-endian encoding of the wrapped byte
sum, whose high byte needs no second truncation. -/
theorem bytesFromUint16_checksum (l : List Nat) :
    bytesFromUint16 (checksum l) = [l.sum % 65536 / 256, l.sum % 65536 % 256] := by
  simp [bytesFromUint16, checksum, wrapped_hi_mod]

/-- The success case of `Bytes`: for a payload of at most 255 bytes the
output is the nine envelope bytes, the payload, and the two checksum
bytes. -/
theorem Bytes_ok (p : Packet) (hle : p.Data.length ≤ 255) :
    p.Bytes = .ok (
      let pre := [p.Header / 256 % 256, p.Header % 256, p.Source / 256 % 256,
        p.Source % 256, p.Destination / 256 % 256, p.Destination % 256,
        p.ControlCode % 256, p.FunctionCode % 256, p.Data.length] ++ p.Data
      pre ++ [pre.sum % 65536 / 256, pre.sum % 65536 % 256]) := by
  have hn : p.Data.length % 256 = p.Data.length := Nat.mod_eq_of_lt (by omega)
  unfold Packet.Bytes
  rw [if_neg (by omega)]
  simp only [bytesFromUint16, checksum, hn, wrapped_hi_mod, List.cons_append,
    List.nil_append]

/-- C3: `Bytes` fails with `PayloadTooLarge` exactly when the payload
exceeds 255 bytes; otherwise the output is header, source and destination
(big-endian), control, function and length bytes, the payload, and the
2-byte big-endian additive checksum over all preceding bytes, for a total
of `11 + len(payload)` bytes. -/
theorem bytes_encoding_spec (p : Packet) :
    (p.Bytes = .error .PayloadTooLarge ↔ 255 < p.Data.length) ∧
    (p.Data.length ≤ 255 →
      p.Bytes = .ok (
        let pre := [p.Header / 256 % 256, p.Header % 256, p.Source / 256 % 256,
          p.Source % 256, p.Destination / 256 % 256, p.Destination % 256,
          p.ControlCode % 256, p.FunctionCode % 256, p.Data.length] ++ p.Data
        pre ++ [pre.sum % 65536 / 256, pre.sum % 65536 % 256])) ∧
    (∀ out, p.Bytes = .ok out → out.length = 11 + p.Data.length) := by
  refine ⟨?_, ?_, ?_⟩
  · unfold Packet.Bytes
    by_cases h : p.Data.length > 0xFF
    · rw [if_pos h]
      simp
      omega
    · rw [if_neg h]
      simp
      omega
  · intro hle
    exact Bytes_ok p hle
  · intro out h
    by_cases h255 : p.Data.length > 0xFF
    · rw [Packet.Bytes, if_pos h255] at h
      cases h
    · rw [Packet.Bytes, if_neg h255] at h
      cases h
      simp only [bytesFromUint16, List.length_append, List.length_cons, List.length_nil]
      omega

/-- Witness for C3: the encoding of the default packet. -/
theorem bytes_encoding_spec_witness :
    DefaultPacket.Bytes = .ok [0xAA, 0x55, 0, 0, 0, 0, 0, 0, 0, 0, 0xFF] :=
  (bytes_encoding_spec DefaultPacket).2.1 (by decide)

/-- Parsing an encoded frame of the canonical shape (nine envelope bytes
below 256 at the front, a correct length byte, a wrapped checksum):
every envelope field is recovered as the big-endian combination of its
bytes, and the payload is returned unchanged. -/
theorem ParsePacket_of_encoded (a0 a1 a2 a3 a4 a5 a6 a7 : Nat) (data : List Nat)
    (hn : data.length ≤ 255) (cs : Nat)
    (hcs : cs = (([a0, a1, a2, a3, a4, a5, a6, a7, data.length] ++ data)).sum % 65536)
    (hhdr : a0 * 256 + a1 = 0xAA55) :
    ParsePacket (([a0, a1, a2, a3, a4, a5, a6, a7, data.length] ++ data) ++
        [cs / 256, cs % 256]) =
      .ok { Header := a0 * 256 + a1, Source := a2 * 256 + a3,
            Destination := a4 * 256 + a5, ControlCode := a6, FunctionCode := a7,
            Data := data } := by
  set front : List Nat := [a0, a1, a2, a3, a4, a5, a6, a7, data.length] with hfront
  set pre : List Nat := front ++ data with hpre
  set out : List Nat := pre ++ [cs / 256, cs % 256] with hout
  have hcslt : cs < 65536 := by rw [hcs]; exact Nat.mod_lt _ (by norm_num)
  have hprelen : pre.length = data.length + 9 := by
    rw [hpre, hfront]
    simp only [List.length_append, List.length_cons, List.length_nil]
    omega
  have hlen : out.length = data.length + 11 := by
    rw [hout]
    simp only [List.length_append, List.length_cons, List.length_nil]
    omega
  have g0 : out.getD 0 0 = a0 := rfl
  have g1 : out.getD 1 0 = a1 := rfl
  have g2 : out.getD 2 0 = a2 := rfl
  have g3 : out.getD 3 0 = a3 := rfl
  have g4 : out.getD 4 0 = a4 := rfl
  have g5 : out.getD 5 0 = a5 := rfl
  have g6 : out.getD 6 0 = a6 := rfl
  have g7 : out.getD 7 0 = a7 := rfl
  have g8 : out.getD 8 0 = data.length := rfl
  have hidx2 : out.length - 2 = pre.length := by omega
  have hidx1 : out.length - 1 = pre.length + 1 := by omega
  have hc1 : out.getD (out.length - 2) 0 = cs / 256 := by
    rw [hidx2, hout, List.getD_append_right pre [cs / 256, cs % 256] 0 pre.length le_rfl,
      Nat.sub_self]
    rfl
  have hc2 : out.getD (out.length - 1) 0 = cs % 256 := by
    rw [hidx1, hout,
      List.getD_append_right pre [cs / 256, cs % 256] 0 (pre.length + 1) (by omega),
      Nat.add_sub_cancel_left]
    rfl
  have htake : out.take (out.length - 2) = pre := by
    rw [hidx2, hout]
    exact List.take_left pre _
  have hdrop : out.drop 9 = data ++ [cs / 256, cs % 256] := by
    rw [hout, hpre, List.append_assoc]
    exact List.drop_left front _
  rw [ParsePacket_spec out (by omega)]
  rw [if_neg (show ¬ out.length ≠ out.getD 8 0 + 11 by rw [g8]; omega)]
  rw [if_neg (show ¬ checksum (out.take (out.length - 2)) ≠
      uint16FromBytes (out.getD (out.length - 2) 0) (out.getD (out.length - 1) 0) by
    rw [htake, hc1, hc2]
    simp only [checksum, uint16FromBytes]
    omega)]
  rw [if_neg (show ¬ uint16FromBytes (out.getD 0 0) (out.getD 1 0) ≠ 0xAA55 by
    rw [g0, g1]
    simp only [uint16FromBytes]
    omega)]
  rw [g0, g1, g2, g3, g4, g5, g6, g7, g8, hdrop]
  rw [List.take_left data _]
  simp only [uint16FromBytes]

/-- C1 counterexample: a packet whose header field is 0 (not the protocol
constant 0xAA55) and whose payload is empty encodes successfully, but
decoding the encoding fails the header check — so the claim's round-trip
does not hold for every packet with payload length at most 255. -/
theorem packet_roundtrip_counterexample :
    zeroHeaderPacket.Data.length ≤ 255 ∧
    zeroHeaderPacket.Bytes = .ok [0, 0, 0, 0, 0, 0, 0, 0, 0, 0, 0] ∧
    ParsePacket [0, 0, 0, 0, 0, 0, 0, 0, 0, 0, 0] = .error .BadHeader := by
  decide

/-- C1 (amended): the round-trip holds for every packet whose header field
is the protocol constant 0xAA55 (and whose other fields fit their declared
Go widths): encoding succeeds for payloads of at most 255 bytes and
decoding the encoding returns the packet — payload and all envelope
fields — exactly. -/
theorem packet_roundtrip (p : Packet) (hH : p.Header = 0xAA55)
    (hS : p.Source < 65536) (hD : p.Destination < 65536)
    (hC : p.ControlCode < 256) (hF : p.FunctionCode < 256)
    (hn : p.Data.length ≤ 255) :
    ∃ out, p.Bytes = .ok out ∧ ParsePacket out = .ok p := by
  obtain ⟨H, S, D, CC, FC, data⟩ := p
  simp only at hH hS hD hC hF hn
  subst hH
  have hB := Bytes_ok ⟨0xAA55, S, D, CC, FC, data⟩ hn
  dsimp only at hB
  refine ⟨_, hB, ?_⟩
  rw [Nat.mod_eq_of_lt hC, Nat.mod_eq_of_lt hF]
  rw [ParsePacket_of_encoded]
  · simp only [Except.ok.injEq, Packet.mk.injEq, and_true]
    refine ⟨by norm_num, by omega, by omega⟩
  · exact hn
  · rfl
  · norm_num

/-- Witness for C1: the concrete packet `witnessPacket` round-trips. -/
theorem packet_roundtrip_witness :
    ∃ out, witnessPacket.Bytes = .ok out ∧ ParsePacket out = .ok witnessPacket :=
  packet_roundtrip witnessPacket rfl (by decide) (by decide) (by decide) (by decide)
    (by decide)

/-- The common status-payload validation tail of the register and
deregister response parsers: exactly-one-byte payload, NACK 0x15 is
`DeviceRejected`, ACK 0x06 succeeds, everything else is
`MalformedStatus`. -/
theorem status_chain_spec (d : List Nat) :
    ((if d.length ≠ 1 then (.error .MalformedStatus : Except ProtoErr Unit)
      else if d.getD 0 0 = StatusNOACK then .error .DeviceRejected
      else if d.getD 0 0 ≠ StatusACK then .error .MalformedStatus
      else .ok ()) = .ok () ↔ d = [0x06]) ∧
    ((if d.length ≠ 1 then (.error .MalformedStatus : Except ProtoErr Unit)
      else if d.getD 0 0 = StatusNOACK then .error .DeviceRejected
      else if d.getD 0 0 ≠ StatusACK then .error .MalformedStatus
      else .ok ()) = .error .DeviceRejected ↔ d = [0x15]) ∧
    (d ≠ [0x06] → d ≠ [0x15] →
      (if d.length ≠ 1 then (.error .MalformedStatus : Except ProtoErr Unit)
       else if d.getD 0 0 = StatusNOACK then .error .DeviceRejected
       else if d.getD 0 0 ≠ StatusACK then .error .MalformedStatus
       else .ok ()) = .error .MalformedStatus) := by
  rcases d with _ | ⟨a, _ | ⟨b, t⟩⟩
  · simp
  · by_cases h15 : a = 0x15
    · subst h15
      simp [StatusNOACK]
    · by_cases h6 : a = 0x06
      · subst h6
        simp [StatusNOACK, StatusACK]
      · simp [StatusNOACK, StatusACK, h15, h6]
  · simp

/-- C4: for a response frame that decodes with the expected control code
0x10 and response function code (0x81 for register, 0x82 for deregister),
the parser succeeds exactly on the 1-byte ACK payload `[0x06]`, reports
`DeviceRejected` exactly on the 1-byte NACK payload `[0x15]`, and reports
`MalformedStatus` on a payload of any other length or any other status
byte; a wrong control code yields `UnexpectedControlCode` and a wrong
function code `UnexpectedFunctionCode`. -/
theorem status_response_parsers (body : List Nat) (p : Packet)
    (hp : ParsePacket body = .ok p) :
    ((p.ControlCode = 0x10 → p.FunctionCode = 0x81 →
        (ParseRegisterInverterResponse body = .ok () ↔ p.Data = [0x06]) ∧
        (ParseRegisterInverterResponse body = .error .DeviceRejected ↔ p.Data = [0x15]) ∧
        (p.Data ≠ [0x06] → p.Data ≠ [0x15] →
          ParseRegisterInverterResponse body = .error .MalformedStatus)) ∧
      (p.ControlCode ≠ 0x10 →
        ParseRegisterInverterResponse body = .error .UnexpectedControlCode) ∧
      (p.ControlCode = 0x10 → p.FunctionCode ≠ 0x81 →
        ParseRegisterInverterResponse body = .error .UnexpectedFunctionCode)) ∧
    ((p.ControlCode = 0x10 → p.FunctionCode = 0x82 →
        (ParseUnregisterInverterResponse body = .ok () ↔ p.Data = [0x06]) ∧
        (ParseUnregisterInverterResponse body = .error .DeviceRejected ↔ p.Data = [0x15]) ∧
        (p.Data ≠ [0x06] → p.Data ≠ [0x15] →
          ParseUnregisterInverterResponse body = .error .MalformedStatus)) ∧
      (p.ControlCode ≠ 0x10 →
        ParseUnregisterInverterResponse body = .error .UnexpectedControlCode) ∧
      (p.ControlCode = 0x10 → p.FunctionCode ≠ 0x82 →
        ParseUnregisterInverterResponse body = .error .UnexpectedFunctionCode)) := by
  have hreg : ParseRegisterInverterResponse body =
      (if p.ControlCode ≠ ControlCodeRegister then .error .UnexpectedControlCode
       else if p.FunctionCode ≠ 0x81 then .error .UnexpectedFunctionCode
       else if p.Data.length ≠ 1 then .error .MalformedStatus
       else if p.Data.getD 0 0 = StatusNOACK then .error .DeviceRejected
       else if p.Data.getD 0 0 ≠ StatusACK then .error .MalformedStatus
       else .ok ()) := by
    unfold ParseRegisterInverterResponse
    rw [hp]
  have hunreg : ParseUnregisterInverterResponse body =
      (if p.ControlCode ≠ ControlCodeRegister then .error .UnexpectedControlCode
       else if p.FunctionCode ≠ 0x82 then .error .UnexpectedFunctionCode
       else if p.Data.length ≠ 1 then .error .MalformedStatus
       else if p.Data.getD 0 0 = StatusNOACK then .error .DeviceRejected
       else if p.Data.getD 0 0 ≠ StatusACK then .error .MalformedStatus
       else .ok ()) := by
    unfold ParseUnregisterInverterResponse
    rw [hp]
  rw [hreg, hunreg]
  unfold ControlCodeRegister
  constructor
  · refine ⟨fun hc hf => ?_, fun hc => ?_, fun hc hf => ?_⟩
    · rw [if_neg (by simp [hc]), if_neg (by simp [hf])]
      exact status_chain_spec p.Data
    · rw [if_pos hc]
    · rw [if_neg (by simp [hc]), if_pos hf]
  · refine ⟨fun hc hf => ?_, fun hc => ?_, fun hc hf => ?_⟩
    · rw [if_neg (by simp [hc]), if_neg (by simp [hf])]
      exact status_chain_spec p.Data
    · rw [if_pos hc]
    · rw [if_neg (by simp [hc]), if_pos hf]

/-- Witness for C4: the concrete ACK frame `regAckFrame` decodes to
`regAckPacket` and the register-response parser accepts it. -/
theorem status_response_parsers_witness :
    ParseRegisterInverterResponse regAckFrame = .ok () :=
  ((status_response_parsers regAckFrame regAckPacket (by decide)).1.1
    rfl rfl).1.mpr rfl

/-- The degenerate shift of the first fault check. -/
theorem land_bit31_iff (n : Nat) : (n &&& 2147483648 = 2147483648) ↔ n.testBit 31 := by
  have h := land_shift_iff n 0 (by norm_num)
  simpa using h

/-- Single-bit mask tests for each concrete fault mask numeral. -/
theorem land_mask_iff_1 (n : Nat) : (n &&& 2 = 2) ↔ n.testBit 1 := by
  have h : (2 : Nat) = 2 ^ 1 := by norm_num
  rw [h]
  exact land_two_pow_iff n 1

theorem land_mask_iff_2 (n : Nat) : (n &&& 4 = 4) ↔ n.testBit 2 := by
  have h : (4 : Nat) = 2 ^ 2 := by norm_num
  rw [h]
  exact land_two_pow_iff n 2

theorem land_mask_iff_3 (n : Nat) : (n &&& 8 = 8) ↔ n.testBit 3 := by
  have h : (8 : Nat) = 2 ^ 3 := by norm_num
  rw [h]
  exact land_two_pow_iff n 3

theorem land_mask_iff_4 (n : Nat) : (n &&& 16 = 16) ↔ n.testBit 4 := by
  have h : (16 : Nat) = 2 ^ 4 := by norm_num
  rw [h]
  exact land_two_pow_iff n 4

theorem land_mask_iff_5 (n : Nat) : (n &&& 32 = 32) ↔ n.testBit 5 := by
  have h : (32 : Nat) = 2 ^ 5 := by norm_num
  rw [h]
  exact land_two_pow_iff n 5

theorem land_mask_iff_6 (n : Nat) : (n &&& 64 = 64) ↔ n.testBit 6 := by
  have h : (64 : Nat) = 2 ^ 6 := by norm_num
  rw [h]
  exact land_two_pow_iff n 6

theorem land_mask_iff_7 (n : Nat) : (n &&& 128 = 128) ↔ n.testBit 7 := by
  have h : (128 : Nat) = 2 ^ 7 := by norm_num
  rw [h]
  exact land_two_pow_iff n 7

theorem land_mask_iff_8 (n : Nat) : (n &&& 256 = 256) ↔ n.testBit 8 := by
  have h : (256 : Nat) = 2 ^ 8 := by norm_num
  rw [h]
  exact land_two_pow_iff n 8

theorem land_mask_iff_9 (n : Nat) : (n &&& 512 = 512) ↔ n.testBit 9 := by
  have h : (512 : Nat) = 2 ^ 9 := by norm_num
  rw [h]
  exact land_two_pow_iff n 9

theorem land_mask_iff_10 (n : Nat) : (n &&& 1024 = 1024) ↔ n.testBit 10 := by
  have h : (1024 : Nat) = 2 ^ 10 := by norm_num
  rw [h]
  exact land_two_pow_iff n 10

theorem land_mask_iff_11 (n : Nat) : (n &&& 2048 = 2048) ↔ n.testBit 11 := by
  have h : (2048 : Nat) = 2 ^ 11 := by norm_num
  rw [h]
  exact land_two_pow_iff n 11

theorem land_mask_iff_12 (n : Nat) : (n &&& 4096 = 4096) ↔ n.testBit 12 := by
  have h : (4096 : Nat) = 2 ^ 12 := by norm_num
  rw [h]
  exact land_two_pow_iff n 12

theorem land_mask_iff_13 (n : Nat) : (n &&& 8192 = 8192) ↔ n.testBit 13 := by
  have h : (8192 : Nat) = 2 ^ 13 := by norm_num
  rw [h]
  exact land_two_pow_iff n 13

theorem land_mask_iff_14 (n : Nat) : (n &&& 16384 = 16384) ↔ n.testBit 14 := by
  have h : (16384 : Nat) = 2 ^ 14 := by norm_num
  rw [h]
  exact land_two_pow_iff n 14

theorem land_mask_iff_15 (n : Nat) : (n &&& 32768 = 32768) ↔ n.testBit 15 := by
  have h : (32768 : Nat) = 2 ^ 15 := by norm_num
  rw [h]
  exact land_two_pow_iff n 15

theorem land_mask_iff_16 (n : Nat) : (n &&& 65536 = 65536) ↔ n.testBit 16 := by
  have h : (65536 : Nat) = 2 ^ 16 := by norm_num
  rw [h]
  exact land_two_pow_iff n 16

theorem land_mask_iff_17 (n : Nat) : (n &&& 131072 = 131072) ↔ n.testBit 17 := by
  have h : (131072 : Nat) = 2 ^ 17 := by norm_num
  rw [h]
  exact land_two_pow_iff n 17

theorem land_mask_iff_18 (n : Nat) : (n &&& 262144 = 262144) ↔ n.testBit 18 := by
  have h : (262144 : Nat) = 2 ^ 18 := by norm_num
  rw [h]
  exact land_two_pow_iff n 18

theorem land_mask_iff_19 (n : Nat) : (n &&& 524288 = 524288) ↔ n.testBit 19 := by
  have h : (524288 : Nat) = 2 ^ 19 := by norm_num
  rw [h]
  exact land_two_pow_iff n 19

theorem land_mask_iff_20 (n : Nat) : (n &&& 1048576 = 1048576) ↔ n.testBit 20 := by
  have h : (1048576 : Nat) = 2 ^ 20 := by norm_num
  rw [h]
  exact land_two_pow_iff n 20

theorem land_mask_iff_21 (n : Nat) : (n &&& 2097152 = 2097152) ↔ n.testBit 21 := by
  have h : (2097152 : Nat) = 2 ^ 21 := by norm_num
  rw [h]
  exact land_two_pow_iff n 21

theorem land_mask_iff_22 (n : Nat) : (n &&& 4194304 = 4194304) ↔ n.testBit 22 := by
  have h : (4194304 : Nat) = 2 ^ 22 := by norm_num
  rw [h]
  exact land_two_pow_iff n 22

theorem land_mask_iff_23 (n : Nat) : (n &&& 8388608 = 8388608) ↔ n.testBit 23 := by
  have h : (8388608 : Nat) = 2 ^ 23 := by norm_num
  rw [h]
  exact land_two_pow_iff n 23

theorem land_mask_iff_24 (n : Nat) : (n &&& 16777216 = 16777216) ↔ n.testBit 24 := by
  have h : (16777216 : Nat) = 2 ^ 24 := by norm_num
  rw [h]
  exact land_two_pow_iff n 24

theorem land_mask_iff_25 (n : Nat) : (n &&& 33554432 = 33554432) ↔ n.testBit 25 := by
  have h : (33554432 : Nat) = 2 ^ 25 := by norm_num
  rw [h]
  exact land_two_pow_iff n 25

theorem land_mask_iff_26 (n : Nat) : (n &&& 67108864 = 67108864) ↔ n.testBit 26 := by
  have h : (67108864 : Nat) = 2 ^ 26 := by norm_num
  rw [h]
  exact land_two_pow_iff n 26

theorem land_mask_iff_27 (n : Nat) : (n &&& 134217728 = 134217728) ↔ n.testBit 27 := by
  have h : (134217728 : Nat) = 2 ^ 27 := by norm_num
  rw [h]
  exact land_two_pow_iff n 27

theorem land_mask_iff_28 (n : Nat) : (n &&& 268435456 = 268435456) ↔ n.testBit 28 := by
  have h : (268435456 : Nat) = 2 ^ 28 := by norm_num
  rw [h]
  exact land_two_pow_iff n 28

theorem land_mask_iff_29 (n : Nat) : (n &&& 536870912 = 536870912) ↔ n.testBit 29 := by
  have h : (536870912 : Nat) = 2 ^ 29 := by norm_num
  rw [h]
  exact land_two_pow_iff n 29

theorem land_mask_iff_30 (n : Nat) : (n &&& 1073741824 = 1073741824) ↔ n.testBit 30 := by
  have h : (1073741824 : Nat) = 2 ^ 30 := by norm_num
  rw [h]
  exact land_two_pow_iff n 30

/-- C5 counterexample: on the mask with only bit 31 set the code emits
"TzProtectFault", while the documented table (bit 31 = "BIT31") iterated
from bit 31 down to bit 0 — the list the claim predicts — would emit
"BIT31"; the code's bit-to-name assignment is the reverse of the
documented one. -/
theorem fault_table_counterexample :
    (NormalizeInfoResponse bit31Telemetry).ErrMessage = ["TzProtectFault"] ∧
    claimFaultList bit31Telemetry.ErrMessage = ["BIT31"] ∧
    (NormalizeInfoResponse bit31Telemetry).ErrMessage ≠
      claimFaultList bit31Telemetry.ErrMessage := by
  decide

/-- C5 (amended): `NormalizeInfoResponse` produces exactly one fault name
per set bit of the 32-bit mask, iterating from bit 31 (most significant)
down to bit 0, but drawing the names from the documented table in reverse:
the k-th emitted name (`faultName k`, the name the table documents for bit
k) is attached to bit `31 - k`, so bit 31 carries "TzProtectFault" and bit
0 carries "BIT31". -/
theorem fault_table_reversed (x : NormalInfoResponse) :
    (NormalizeInfoResponse x).ErrMessage =
      ((List.range 32).map
        (fun k => if x.ErrMessage.testBit (31 - k) then [faultName k] else [])).flatten := by
  show errMessageList x.ErrMessage = _
  have hr : List.range 32 = [0, 1, 2, 3, 4, 5, 6, 7, 8, 9, 10, 11, 12, 13, 14, 15, 16,
      17, 18, 19, 20, 21, 22, 23, 24, 25, 26, 27, 28, 29, 30, 31] := rfl
  rw [hr]
  unfold errMessageList errMessageByte0 errMessageByte1 errMessageByte2 errMessageByte3
  simp [land_bit31_iff, land_mask_iff_1, land_mask_iff_2, land_mask_iff_3, land_mask_iff_4, land_mask_iff_5, land_mask_iff_6, land_mask_iff_7, land_mask_iff_8, land_mask_iff_9, land_mask_iff_10, land_mask_iff_11, land_mask_iff_12, land_mask_iff_13, land_mask_iff_14, land_mask_iff_15, land_mask_iff_16, land_mask_iff_17, land_mask_iff_18, land_mask_iff_19, land_mask_iff_20, land_mask_iff_21, land_mask_iff_22, land_mask_iff_23, land_mask_iff_24, land_mask_iff_25, land_mask_iff_26, land_mask_iff_27, land_mask_iff_28, land_mask_iff_29, land_mask_iff_30,
    faultName, List.append_assoc]

/-- Characterization of the registration exchange: the inverter's address
is set exactly on full success; every failure leaves the inverter
unchanged; success is equivalent to all five pipeline steps succeeding. -/
theorem registerExchange_spec (t : Transport) (inv : Inverter) (address : Nat) :
    ((RegisterInverter t inv address).1 = .ok () →
      (RegisterInverter t inv address).2 = { Serial := inv.Serial, Address := address }) ∧
    (∀ e, (RegisterInverter t inv address).1 = .error e →
      (RegisterInverter t inv address).2 = inv) ∧
    ((RegisterInverter t inv address).1 = .ok () ↔
      (t.flushResult = .ok () ∧
        ∃ req, (RegisterInverterRequest inv.Serial address).Bytes = .ok req ∧
          t.writeResult = .ok req.length ∧
          ∃ resp, t.readResult = .ok resp ∧
            ParseRegisterInverterResponse resp = .ok ())) := by
  unfold RegisterInverter clientSend clientRead
  rcases hf : t.flushResult with eu | u
  · simp [hf]
  · cases u
    rcases hb : (RegisterInverterRequest inv.Serial address).Bytes with e | req
    · simp [hf, hb]
    · rcases hw : t.writeResult with ew | n
      · simp [hf, hb, hw]
      · by_cases hwn : n = req.length
        · subst hwn
          rcases hr : t.readResult with er | resp
          · simp [hf, hb, hw, hr]
          · rcases hp : ParseRegisterInverterResponse resp with ep | u2
            · simp [hf, hb, hw, hr, hp]
            · cases u2
              simp [hf, hb, hw, hr, hp]
        · simp [hf, hb, hw, hwn]

/-- Characterization of the deregistration exchange, symmetric to
`registerExchange_spec` with the address reset to 0. -/
theorem unregisterExchange_spec (t : Transport) (inv : Inverter) :
    ((UnregisterInverter t inv).1 = .ok () →
      (UnregisterInverter t inv).2 = { Serial := inv.Serial, Address := 0 }) ∧
    (∀ e, (UnregisterInverter t inv).1 = .error e →
      (UnregisterInverter t inv).2 = inv) ∧
    ((UnregisterInverter t inv).1 = .ok () ↔
      (t.flushResult = .ok () ∧
        ∃ req, (UnregisterInverterRequest inv.Serial inv.Address).Bytes = .ok req ∧
          t.writeResult = .ok req.length ∧
          ∃ resp, t.readResult = .ok resp ∧
            ParseUnregisterInverterResponse resp = .ok ())) := by
  unfold UnregisterInverter clientSend clientRead
  rcases hf : t.flushResult with eu | u
  · simp [hf]
  · cases u
    rcases hb : (UnregisterInverterRequest inv.Serial inv.Address).Bytes with e | req
    · simp [hf, hb]
    · rcases hw : t.writeResult with ew | n
      · simp [hf, hb, hw]
      · by_cases hwn : n = req.length
        · subst hwn
          rcases hr : t.readResult with er | resp
          · simp [hf, hb, hw, hr]
          · rcases hp : ParseUnregisterInverterResponse resp with ep | u2
            · simp [hf, hb, hw, hr, hp]
            · cases u2
              simp [hf, hb, hw, hr, hp]
        · simp [hf, hb, hw, hwn]

/-- C8: `RegisterInverter` sets the inverter's `Address` to the requested
address exactly when the exchange succeeds, `UnregisterInverter` resets it
to 0 exactly when its exchange succeeds, and on every failing path (flush,
encode, write, read, or response-parse error — including a 0x15 NACK,
which surfaces as a parse error) the inverter record is returned
unchanged, `Serial` included. -/
theorem inverter_address_lifecycle (t : Transport) (inv : Inverter) (address : Nat) :
    ((RegisterInverter t inv address).1 = .ok () →
      (RegisterInverter t inv address).2 = { Serial := inv.Serial, Address := address }) ∧
    (∀ e, (RegisterInverter t inv address).1 = .error e →
      (RegisterInverter t inv address).2 = inv) ∧
    ((RegisterInverter t inv address).1 = .ok () ↔
      (t.flushResult = .ok () ∧
        ∃ req, (RegisterInverterRequest inv.Serial address).Bytes = .ok req ∧
          t.writeResult = .ok req.length ∧
          ∃ resp, t.readResult = .ok resp ∧
            ParseRegisterInverterResponse resp = .ok ())) ∧
    ((UnregisterInverter t inv).1 = .ok () →
      (UnregisterInverter t inv).2 = { Serial := inv.Serial, Address := 0 }) ∧
    (∀ e, (UnregisterInverter t inv).1 = .error e →
      (UnregisterInverter t inv).2 = inv) ∧
    ((UnregisterInverter t inv).1 = .ok () ↔
      (t.flushResult = .ok () ∧
        ∃ req, (UnregisterInverterRequest inv.Serial inv.Address).Bytes = .ok req ∧
          t.writeResult = .ok req.length ∧
          ∃ resp, t.readResult = .ok resp ∧
            ParseUnregisterInverterResponse resp = .ok ())) :=
  ⟨(registerExchange_spec t inv address).1,
   (registerExchange_spec t inv address).2.1,
   (registerExchange_spec t inv address).2.2,
   (unregisterExchange_spec t inv).1,
   (unregisterExchange_spec t inv).2.1,
   (unregisterExchange_spec t inv).2.2⟩

/-- Witness for C8: over the all-success transport `ackTransport`,
registering `witnessInverter` at address 5 succeeds and yields the same
serial with address 5. -/
theorem inverter_address_lifecycle_witness :
    (RegisterInverter ackTransport witnessInverter 5).1 = .ok () ∧
    (RegisterInverter ackTransport witnessInverter 5).2 =
      { Serial := [1, 2, 3], Address := 5 } := by
  have h := inverter_address_lifecycle ackTransport witnessInverter 5
  exact ⟨by decide, h.1 (by decide)⟩

/-- Characterization of the telemetry query transaction: it returns a
record exactly when all five pipeline steps succeed. -/
theorem getInfo_spec (t : Transport) (inv : Inverter) (r : NormalInfoResponse) :
    GetInfo t inv = .ok r ↔
      (t.flushResult = .ok () ∧
        ∃ req, (NormalInfoRequest inv.Address).Bytes = .ok req ∧
          t.writeResult = .ok req.length ∧
          ∃ resp, t.readResult = .ok resp ∧
            ParseNormalInfoResponse resp = .ok r) := by
  unfold GetInfo clientSend clientRead
  rcases hf : t.flushResult with eu | u
  · simp [hf]
  · cases u
    rcases hb : (NormalInfoRequest inv.Address).Bytes with e | req
    · simp [hf, hb]
    · rcases hw : t.writeResult with ew | n
      · simp [hf, hb, hw]
      · by_cases hwn : n = req.length
        · subst hwn
          rcases hr : t.readResult with er | resp
          · simp [hf, hb, hw, hr]
          · rcases hp : ParseNormalInfoResponse resp with ep | r2
            · simp [hf, hb, hw, hr, hp]
            · simp [hf, hb, hw, hr, hp]
        · simp [hf, hb, hw, hwn]

/-- Characterization of the device-info query transaction, symmetric to
`getInfo_spec`. -/
theorem getInverterInfo_spec (t : Transport) (inv : Inverter) (r : InverterInfoResponse) :
    GetInverterInfo t inv = .ok r ↔
      (t.flushResult = .ok () ∧
        ∃ req, (InverterInfoRequest inv.Address).Bytes = .ok req ∧
          t.writeResult = .ok req.length ∧
          ∃ resp, t.readResult = .ok resp ∧
            ParseInverterInfoResponse resp = .ok r) := by
  unfold GetInverterInfo clientSend clientRead
  rcases hf : t.flushResult with eu | u
  · simp [hf]
  · cases u
    rcases hb : (InverterInfoRequest inv.Address).Bytes with e | req
    · simp [hf, hb]
    · rcases hw : t.writeResult with ew | n
      · simp [hf, hb, hw]
      · by_cases hwn : n = req.length
        · subst hwn
          rcases hr : t.readResult with er | resp
          · simp [hf, hb, hw, hr]
          · rcases hp : ParseInverterInfoResponse resp with ep | r2
            · simp [hf, hb, hw, hr, hp]
            · simp [hf, hb, hw, hr, hp]
        · simp [hf, hb, hw, hwn]

/-- C9: a zero-byte post-dwell read makes discovery return the distinct
`NoInverter` error — reached before any frame decoding — while every
addressed operation (register, deregister, telemetry query, device-info
query) can never succeed on a zero-byte read. -/
theorem empty_read_outcomes (t : Transport) (inv : Inverter) (address : Nat) :
    (t.flushResult = .ok () → t.writeResult = .ok 11 → t.readResult = .ok [] →
      FindUnregisteredInverter t = .error .NoInverter) ∧
    (t.readResult = .ok [] → ∀ u, (RegisterInverter t inv address).1 ≠ .ok u) ∧
    (t.readResult = .ok [] → ∀ u, (UnregisterInverter t inv).1 ≠ .ok u) ∧
    (t.readResult = .ok [] → ∀ r, GetInfo t inv ≠ .ok r) ∧
    (t.readResult = .ok [] → ∀ r, GetInverterInfo t inv ≠ .ok r) := by
  refine ⟨?_, ?_, ?_, ?_, ?_⟩
  · intro hf hw hr
    have hbytes : UnregisteredInverterRequest.Bytes =
        .ok [0xAA, 0x55, 0, 0, 0, 0, 0x10, 0, 0, 0x01, 0x0F] := by decide
    unfold FindUnregisteredInverter clientSend clientRead
    simp [hf, hw, hbytes, hr]
  · intro hr u h
    cases u
    obtain ⟨hfl, req, hbyte, hwr, resp, hread, hparse⟩ :=
      (registerExchange_spec t inv address).2.2.mp h
    rw [hr] at hread
    injection hread with h2
    subst h2
    rw [(by decide : ParseRegisterInverterResponse ([] : List Nat) =
      .error .FrameTooShort)] at hparse
    simp at hparse
  · intro hr u h
    cases u
    obtain ⟨hfl, req, hbyte, hwr, resp, hread, hparse⟩ :=
      (unregisterExchange_spec t inv).2.2.mp h
    rw [hr] at hread
    injection hread with h2
    subst h2
    rw [(by decide : ParseUnregisterInverterResponse ([] : List Nat) =
      .error .FrameTooShort)] at hparse
    simp at hparse
  · intro hr r h
    obtain ⟨hfl, req, hbyte, hwr, resp, hread, hparse⟩ := (getInfo_spec t inv r).mp h
    rw [hr] at hread
    injection hread with h2
    subst h2
    rw [(by decide : ParseNormalInfoResponse ([] : List Nat) =
      .error .FrameTooShort)] at hparse
    simp at hparse
  · intro hr r h
    obtain ⟨hfl, req, hbyte, hwr, resp, hread, hparse⟩ :=
      (getInverterInfo_spec t inv r).mp h
    rw [hr] at hread
    injection hread with h2
    subst h2
    rw [(by decide : ParseInverterInfoResponse ([] : List Nat) =
      .error .FrameTooShort)] at hparse
    simp at hparse

/-- Witness for C9: on the silent transport, discovery reports
`NoInverter`. -/
theorem empty_read_outcomes_witness :
    FindUnregisteredInverter silentTransport = .error .NoInverter :=
  (empty_read_outcomes silentTransport witnessInverter 0).1 rfl rfl rfl
